import Mathlib

/-
Shallow embedding of the busback authentication backend (src/main.py).

The source is a FastAPI application with three handlers (register, login,
root), a bcrypt-based credential hasher (passlib wrappers at lines 47-51),
a JWT issuer (create_token, lines 54-58), and a MongoDB user collection.

Modelling decisions:
- The Mongo users collection is a list of records; find_one by email is the
  first list element with that email, insert_one appends.  Handlers are
  state-passing functions returning a pair of an Except result and the
  resulting store.
- datetime.utcnow is an explicit Nat parameter in seconds since the epoch;
  timedelta of one day is 86400 seconds.
- HTTPException with a status code and a detail string is the error type.
- The bcrypt implementation and the token verifier are not part of the
  repository source; they are modelled from the spec where needed and
  marked as such in their doc comments.
-/

namespace Busback

/-- HTTP error as raised by HTTPException in the handlers: a status code
and a detail message.  FastAPI serialises it as a response with that
status and body containing the detail field. -/
structure HTTPError where
  status : Nat
  detail : String
deriving Repr, DecidableEq

/-! ## Credential hasher (src/main.py lines 44-51) -/

/-- Modelled from the spec: the bcrypt digest computed by passlib, whose
implementation is not part of this repository (src/main.py only wraps
pwd_context.hash and pwd_context.verify).  The spec (4.1) requires a
salted one-way function whose collisions occur only with negligible
probability; the model idealises it as a collision-free function of the
salt and the plaintext, represented by the pair itself (one-wayness is a
computational property not expressible in the extensional model). -/
def bcryptDigest (salt : Nat) (plaintext : String) : Nat × String :=
  (salt, plaintext)

/-- Modelled from the spec: a stored hash output.  The spec (4.1) says the
output is self-describing, embedding the algorithm, salt and cost
parameters.  A stored byte string that does not parse as a bcrypt hash
(any malformed value) is represented by the malformed constructor. -/
inductive StoredHash where
  | bcrypt (salt : Nat) (digest : Nat × String)
  | malformed (raw : String)
deriving Repr, DecidableEq

/-- src/main.py line 47-48: hash_password delegates to pwd_context.hash.
The random salt drawn inside bcrypt is an explicit parameter. -/
def hash_password (salt : Nat) (password : String) : StoredHash :=
  .bcrypt salt (bcryptDigest salt password)

/-- src/main.py line 50-51: verify_password delegates to
pwd_context.verify.  Modelled from the spec for the part not in the
repository: verification re-computes the digest with the salt embedded in
the stored hash and compares; on a malformed stored value it signals
failure by returning false rather than raising (spec 4.1). -/
def verify_password (plain_password : String) (hashed_password : StoredHash) : Bool :=
  match hashed_password with
  | .bcrypt salt digest => bcryptDigest salt plain_password == digest
  | .malformed _ => false

/-! ## Token issuer and verifier (src/main.py lines 53-58, spec 4.2) -/

/-- JWT payload as built by create_token: the data dict passed at the call
site (id and role, src/main.py lines 136-139) plus the exp claim. -/
structure TokenPayload where
  id : String
  role : String
  exp : Nat
deriving Repr, DecidableEq

/-- Modelled from the spec: the HS256 signature over the payload with the
symmetric secret, computed inside jose.jwt.encode (not repository code).
Idealised as an unforgeable MAC, represented by the pair of the secret and
the payload. -/
def hmacSign (secret : String) (payload : TokenPayload) : String × TokenPayload :=
  (secret, payload)

/-- A signed token: payload plus signature (header is the constant HS256
header and is omitted). -/
structure Token where
  payload : TokenPayload
  signature : String × TokenPayload
deriving Repr, DecidableEq

/-- src/main.py lines 54-58: create_token copies the data, sets exp to
now plus one day (86400 seconds) and signs with the process-wide secret.
The data dict is passed as its two fields id and role, matching the only
call site (lines 136-139). -/
def create_token (secret : String) (now : Nat) (id : String) (role : String) : Token :=
  let expire : Nat := now + 86400
  let payload : TokenPayload := ⟨id, role, expire⟩
  ⟨payload, hmacSign secret payload⟩

/-- Modelled from the spec: the token verifier (spec 4.2) has no
implementation under src/ (the repository only issues tokens).  Per the
spec it checks signature integrity against the same secret and that the
current time is before the expiry, returning the subjectId and role on
success and failing otherwise. -/
def verify_token (secret : String) (now : Nat) (t : Token) : Option (String × String) :=
  if t.signature = hmacSign secret t.payload ∧ now < t.payload.exp then
    some (t.payload.id, t.payload.role)
  else
    none

/-! ## User store (src/main.py lines 37-42, 91, 109, 123) -/

/-- A persisted user document, exactly the fields written by register
(src/main.py lines 99-107) plus the _id assigned by the store.  Note there
is no lastLogin field: register does not write one and login never
updates the document. -/
structure StoredUser where
  id : Nat
  name : String
  email : String
  phone : String
  password : StoredHash
  role : String
  createdAt : Nat
  updatedAt : Nat
deriving Repr, DecidableEq

/-- users_collection.find_one on the email key: first document whose
email field matches exactly. -/
def find_one (store : List StoredUser) (email : String) : Option StoredUser :=
  store.find? (fun u => u.email == email)

/-! ## Request schemas (src/main.py lines 60-72) -/

/-- src/main.py lines 61-67: the register request schema; every field is
a required str (role included, with no default). -/
structure RegisterModel where
  name : String
  email : String
  phone : String
  password : String
  confirmPassword : String
  role : String
deriving Repr, DecidableEq

/-- src/main.py lines 69-72: the login request schema; email, password
and role are all required. -/
structure LoginModel where
  email : String
  password : String
  role : String
deriving Repr, DecidableEq

/-- A raw register request body before pydantic validation: each field may
be absent. -/
structure RegisterBody where
  name : Option String
  email : Option String
  phone : Option String
  password : Option String
  confirmPassword : Option String
  role : Option String
deriving Repr, DecidableEq

/-- A raw login request body before pydantic validation. -/
structure LoginBody where
  email : Option String
  password : Option String
  role : Option String
deriving Repr, DecidableEq

/-- Pydantic validation of the register body against RegisterModel
(src/main.py lines 61-67): every declared field is required, so a body
missing any of them (role included) is rejected with a 422 validation
error before the handler runs.  Email format checking by EmailStr is not
modelled (all emails appearing in the claims are well-formed). -/
def validateRegister (b : RegisterBody) : Except HTTPError RegisterModel :=
  match b.name, b.email, b.phone, b.password, b.confirmPassword, b.role with
  | some n, some e, some p, some pw, some cpw, some r => .ok ⟨n, e, p, pw, cpw, r⟩
  | _, _, _, _, _, _ => .error ⟨422, "Field required"⟩

/-- Pydantic validation of the login body against LoginModel
(src/main.py lines 69-72): email, password and role are all required. -/
def validateLogin (b : LoginBody) : Except HTTPError LoginModel :=
  match b.email, b.password, b.role with
  | some e, some pw, some r => .ok ⟨e, pw, r⟩
  | _, _, _ => .error ⟨422, "Field required"⟩

/-! ## Register handler (src/main.py lines 74-111) -/

/-- src/main.py lines 74-111.  State-passing embedding of the register
handler: the salt drawn by bcrypt, the current time and the _id assigned
by the store are explicit parameters.  Step 1 tests Python truthiness of
the six strings (empty means missing); both datetime.utcnow() calls in
the new document are the same request time. -/
def register (store : List StoredUser) (user : RegisterModel) (now salt newId : Nat) :
    Except HTTPError String × List StoredUser :=
  if user.name = "" ∨ user.email = "" ∨ user.phone = "" ∨ user.password = "" ∨
      user.confirmPassword = "" ∨ user.role = "" then
    (.error ⟨400, "All fields are required"⟩, store)
  else if user.password ≠ user.confirmPassword then
    (.error ⟨400, "Passwords do not match"⟩, store)
  else if ¬ (user.role = "student" ∨ user.role = "driver") then
    (.error ⟨400, "Invalid role selected"⟩, store)
  else
    match find_one store user.email with
    | some _ => (.error ⟨400, "Email already exists"⟩, store)
    | none =>
        let hashed_password := hash_password salt user.password
        let new_user : StoredUser :=
          ⟨newId, user.name, user.email, user.phone, hashed_password, user.role, now, now⟩
        (.ok "Account created successfully!", store ++ [new_user])

/-! ## Login handler (src/main.py lines 114-150) -/

/-- The minimal public profile returned on successful login
(src/main.py lines 145-149). -/
structure UserProfile where
  name : String
  email : String
  phone : String
deriving Repr, DecidableEq

/-- Successful login response body (src/main.py lines 141-150). -/
structure LoginResponse where
  message : String
  token : Token
  role : String
  user : UserProfile
deriving Repr, DecidableEq

/-- src/main.py lines 114-150.  State-passing embedding of the login
handler; the store is threaded through every branch so that its framing
behaviour is part of the definition.  The handler only reads the store
(one find_one call) and never inserts or updates. -/
def login (secret : String) (store : List StoredUser) (data : LoginModel) (now : Nat) :
    Except HTTPError LoginResponse × List StoredUser :=
  if data.email = "" ∨ data.password = "" ∨ data.role = "" then
    (.error ⟨400, "Email, password and role are required"⟩, store)
  else
    match find_one store data.email with
    | none => (.error ⟨400, "Invalid email or password"⟩, store)
    | some user =>
        if user.role ≠ data.role then
          (.error ⟨400, "Incorrect role selected"⟩, store)
        else if verify_password data.password user.password = false then
          (.error ⟨400, "Invalid email or password"⟩, store)
        else
          let token := create_token secret now (toString user.id) user.role
          (.ok ⟨"Login successful!", token, user.role, ⟨user.name, user.email, user.phone⟩⟩,
            store)

/-! ## Concrete demonstration data used by witnesses and counterexamples -/

/-- A stored hash of the password pw123456 with salt 3. -/
def demoHash : StoredHash := hash_password 3 "pw123456"

/-- A stored user as produced by a successful registration of the
end-to-end body from the spec (with role student). -/
def demoUser : StoredUser := ⟨0, "A", "a@x.com", "555", demoHash, "student", 100, 100⟩

/-! ## Shared helper lemmas -/

/-- The login handler returns the store it was given on every branch:
src/main.py lines 114-150 contain a single find_one call and no
insert_one or update_one. -/
theorem login_store_frame (secret : String) (store : List StoredUser) (data : LoginModel)
    (now : Nat) : (login secret store data now).2 = store := by
  unfold login
  split
  · rfl
  · split
    · rfl
    · split
      · rfl
      · split
        · rfl
        · rfl

/-! ## Claims -/

/-- Claim C1: for every non-empty password P, verifying P against the hash
of P returns true, and for distinct passwords P1 and P2, verifying P1
against the hash of P2 returns false.  In the idealised collision-free
model of the bcrypt digest, the spec phrase with overwhelming probability
becomes certainty. -/
theorem hash_verify_roundtrip (salt : Nat) (p p1 p2 : String)
    (hp : p ≠ "") (hne : p1 ≠ p2) :
    verify_password p (hash_password salt p) = true ∧
    verify_password p1 (hash_password salt p2) = false := by
  refine ⟨?_, ?_⟩
  · simp [verify_password, hash_password]
  · simp [verify_password, hash_password, bcryptDigest, hne]

/-- Witness for C1 at concrete inputs. -/
theorem hash_verify_roundtrip_witness :
    verify_password "pw123456" (hash_password 7 "pw123456") = true ∧
    verify_password "alpha" (hash_password 7 "beta") = false :=
  hash_verify_roundtrip 7 "pw123456" "alpha" "beta" (by decide) (by decide)

/-- Claim C5: verifying a token immediately after it is issued (same
clock reading) succeeds and returns the subjectId and role passed to
issue; moreover, whenever verification succeeds, the signature matches
the one computed from the same secret and the current time is before the
expiry. -/
theorem token_issue_verify_roundtrip (secret : String) (now : Nat) (subjectId role : String) :
    verify_token secret now (create_token secret now subjectId role) = some (subjectId, role) ∧
    (∀ (t : Token) (res : String × String), verify_token secret now t = some res →
      t.signature = hmacSign secret t.payload ∧ now < t.payload.exp) := by
  refine ⟨?_, ?_⟩
  · simp [verify_token, create_token]
  · intro t res h
    unfold verify_token at h
    split at h
    · exact ‹t.signature = hmacSign secret t.payload ∧ now < t.payload.exp›
    · exact absurd h (by simp)

/-- Witness for C5 at concrete inputs. -/
theorem token_issue_verify_roundtrip_witness :
    verify_token "sec" 5 (create_token "sec" 5 "42" "driver") = some ("42", "driver") ∧
    (create_token "sec" 5 "42" "driver").signature =
      hmacSign "sec" (create_token "sec" 5 "42" "driver").payload ∧
    5 < (create_token "sec" 5 "42" "driver").payload.exp :=
  ⟨(token_issue_verify_roundtrip "sec" 5 "42" "driver").1,
   (token_issue_verify_roundtrip "sec" 5 "42" "driver").2
     (create_token "sec" 5 "42" "driver") ("42", "driver") (by decide)⟩

/-- Claim C6: password verification is total over its second argument.
verify_password is a total Bool-valued function; on any malformed stored
hash it returns false rather than raising, and the login flow turns that
failure into the generic invalid-credentials error (no exception escapes,
src/main.py lines 132-133). -/
theorem verify_password_total_on_malformed (plain raw : String)
    (secret : String) (store : List StoredUser) (data : LoginModel) (now : Nat)
    (u : StoredUser)
    (he : data.email ≠ "") (hp : data.password ≠ "") (hr : data.role ≠ "")
    (hfind : find_one store data.email = some u)
    (hrole : u.role = data.role)
    (hmal : u.password = .malformed raw) :
    verify_password plain (.malformed raw) = false ∧
    (login secret store data now).1 = .error ⟨400, "Invalid email or password"⟩ := by
  refine ⟨rfl, ?_⟩
  simp [login, he, hp, hr, hfind, hrole, hmal, verify_password]

/-- Witness for C6 at concrete inputs: a user whose stored password field
is a malformed byte string. -/
theorem verify_password_total_on_malformed_witness :
    verify_password "pw123456" (.malformed "not-a-bcrypt-hash") = false ∧
    (login "sec" [⟨0, "A", "a@x.com", "555", .malformed "not-a-bcrypt-hash", "student", 100, 100⟩]
        ⟨"a@x.com", "pw123456", "student"⟩ 200).1 =
      .error ⟨400, "Invalid email or password"⟩ :=
  verify_password_total_on_malformed "pw123456" "not-a-bcrypt-hash" "sec"
    [⟨0, "A", "a@x.com", "555", .malformed "not-a-bcrypt-hash", "student", 100, 100⟩]
    ⟨"a@x.com", "pw123456", "student"⟩ 200
    ⟨0, "A", "a@x.com", "555", .malformed "not-a-bcrypt-hash", "student", 100, 100⟩
    (by decide) (by decide) (by decide) (by decide) (by decide) (by decide)

/-- Claim C2: a login with an email absent from the store and a login
with an existing email, matching role but wrong password produce the same
externally visible failure: status 400 and the identical detail message,
so the response does not reveal whether the email exists. -/
theorem login_no_enumeration (secret : String) (storeA storeB : List StoredUser)
    (data : LoginModel) (now : Nat) (u : StoredUser)
    (he : data.email ≠ "") (hp : data.password ≠ "") (hr : data.role ≠ "")
    (hA : find_one storeA data.email = none)
    (hB : find_one storeB data.email = some u)
    (hrole : u.role = data.role)
    (hpw : verify_password data.password u.password = false) :
    (login secret storeA data now).1 = .error ⟨400, "Invalid email or password"⟩ ∧
    (login secret storeB data now).1 = .error ⟨400, "Invalid email or password"⟩ := by
  refine ⟨?_, ?_⟩
  · simp [login, he, hp, hr, hA]
  · simp [login, he, hp, hr, hB, hrole, hpw]

/-- Witness for C2: empty store versus a store holding demoUser, probed
with a wrong password. -/
theorem login_no_enumeration_witness :
    (login "sec" [] ⟨"a@x.com", "wrong", "student"⟩ 200).1 =
      .error ⟨400, "Invalid email or password"⟩ ∧
    (login "sec" [demoUser] ⟨"a@x.com", "wrong", "student"⟩ 200).1 =
      .error ⟨400, "Invalid email or password"⟩ :=
  login_no_enumeration "sec" [] [demoUser] ⟨"a@x.com", "wrong", "student"⟩ 200 demoUser
    (by decide) (by decide) (by decide) (by decide) (by decide) (by decide) (by decide)

/-- Counterexample to claim C3: for the same login request (existing email,
wrong role), the store holding the user answers with the distinct detail
message Incorrect role selected, while the empty store answers Invalid
email or password; the two messages differ, so role mismatch is not
collapsed to the generic message and the response leaks that the email
exists. -/
theorem role_mismatch_leaks_email_existence :
    (login "sec" [demoUser] ⟨"a@x.com", "pw123456", "driver"⟩ 200).1 =
      .error ⟨400, "Incorrect role selected"⟩ ∧
    (login "sec" [] ⟨"a@x.com", "pw123456", "driver"⟩ 200).1 =
      .error ⟨400, "Invalid email or password"⟩ ∧
    ("Incorrect role selected" : String) ≠ "Invalid email or password" := by
  refine ⟨rfl, rfl, by decide⟩

/-- Claim C3 as amended: when the supplied role does not match the stored
role of an existing user, the flow fails with status 400 and the distinct
detail message Incorrect role selected (src/main.py line 129), which
differs from the generic invalid-credentials message and therefore does
reveal that the email exists. -/
theorem role_mismatch_distinct_message (secret : String) (store : List StoredUser)
    (data : LoginModel) (now : Nat) (u : StoredUser)
    (he : data.email ≠ "") (hp : data.password ≠ "") (hr : data.role ≠ "")
    (hfind : find_one store data.email = some u)
    (hrole : u.role ≠ data.role) :
    (login secret store data now).1 = .error ⟨400, "Incorrect role selected"⟩ ∧
    ("Incorrect role selected" : String) ≠ "Invalid email or password" := by
  refine ⟨?_, by decide⟩
  simp [login, he, hp, hr, hfind, hrole]

/-- Witness for the amended C3 at concrete inputs. -/
theorem role_mismatch_distinct_message_witness :
    (login "sec" [demoUser] ⟨"a@x.com", "pw123456", "driver"⟩ 300).1 =
      .error ⟨400, "Incorrect role selected"⟩ ∧
    ("Incorrect role selected" : String) ≠ "Invalid email or password" :=
  role_mismatch_distinct_message "sec" [demoUser] ⟨"a@x.com", "pw123456", "driver"⟩ 300
    demoUser (by decide) (by decide) (by decide) (by decide) (by decide)

/-- Counterexample to claim C4: a successful login (correct email, role
and password) returns the store exactly as it was, so no record gains a
lastLogin value; indeed the stored document has no lastLogin field at all
(register, src/main.py lines 99-107, never writes one and login never
updates the store). -/
theorem successful_login_leaves_record_unchanged :
    (login "sec" [demoUser] ⟨"a@x.com", "pw123456", "student"⟩ 200).1 =
      .ok ⟨"Login successful!", create_token "sec" 200 "0" "student", "student",
        ⟨"A", "a@x.com", "555"⟩⟩ ∧
    (login "sec" [demoUser] ⟨"a@x.com", "pw123456", "student"⟩ 200).2 = [demoUser] := by
  refine ⟨rfl, rfl⟩

/-- Claim C4 as amended: a successful login performs no update on the
User Store; the user record is returned unchanged and no lastLogin field
is set (the persisted document carries no such field in this variant). -/
theorem login_success_store_unchanged (secret : String) (store : List StoredUser)
    (data : LoginModel) (now : Nat) (r : LoginResponse)
    (h : (login secret store data now).1 = .ok r) :
    (login secret store data now).2 = store :=
  login_store_frame secret store data now

/-- Witness for the amended C4 at concrete inputs. -/
theorem login_success_store_unchanged_witness :
    (login "sec" [demoUser] ⟨"a@x.com", "pw123456", "student"⟩ 200).2 = [demoUser] :=
  login_success_store_unchanged "sec" [demoUser] ⟨"a@x.com", "pw123456", "student"⟩ 200
    ⟨"Login successful!", create_token "sec" 200 "0" "student", "student",
      ⟨"A", "a@x.com", "555"⟩⟩ rfl

/-- Claim C7: a well-formed registration request whose email already has
a record in the store fails with the conflict error Email already exists
(status 400) and leaves the store exactly unchanged: nothing is inserted
and every existing record, the first user included, is as before. -/
theorem duplicate_email_conflict (store : List StoredUser) (user : RegisterModel)
    (now salt newId : Nat) (u : StoredUser)
    (h1 : user.name ≠ "") (h2 : user.email ≠ "") (h3 : user.phone ≠ "")
    (h4 : user.password ≠ "") (h5 : user.confirmPassword ≠ "") (h6 : user.role ≠ "")
    (hmatch : user.password = user.confirmPassword)
    (hrole : user.role = "student" ∨ user.role = "driver")
    (hfind : find_one store user.email = some u) :
    (register store user now salt newId).1 = .error ⟨400, "Email already exists"⟩ ∧
    (register store user now salt newId).2 = store := by
  constructor
  · simp [register, h1, h2, h3, h4, h5, h6, hmatch, hrole, hfind]
  · simp [register, h1, h2, h3, h4, h5, h6, hmatch, hrole, hfind]

/-- Witness for C7: registering the demo email a second time against the
store already holding demoUser. -/
theorem duplicate_email_conflict_witness :
    (register [demoUser] ⟨"B", "a@x.com", "777", "otherpw", "otherpw", "driver"⟩ 500 9 1).1 =
      .error ⟨400, "Email already exists"⟩ ∧
    (register [demoUser] ⟨"B", "a@x.com", "777", "otherpw", "otherpw", "driver"⟩ 500 9 1).2 =
      [demoUser] :=
  duplicate_email_conflict [demoUser] ⟨"B", "a@x.com", "777", "otherpw", "otherpw", "driver"⟩
    500 9 1 demoUser (by decide) (by decide) (by decide) (by decide) (by decide) (by decide)
    (by decide) (by decide) (by decide)

/-- Counterexample to claim C8: the schemas (src/main.py lines 61-72)
declare role as a required field with no default, so the register body
from the claim without a role field, and likewise the login body without
a role field, are rejected by validation instead of succeeding; no
default role is assigned. -/
theorem missing_role_field_rejected :
    validateRegister ⟨some "A", some "a@x.com", some "555", some "pw123456",
        some "pw123456", none⟩ =
      .error ⟨422, "Field required"⟩ ∧
    validateLogin ⟨some "a@x.com", some "pw123456", none⟩ = .error ⟨422, "Field required"⟩ :=
  ⟨rfl, rfl⟩

/-- Claim C8 as amended: with role student supplied in both bodies, the
end-to-end flow succeeds: validation accepts both bodies, registering
the body from the claim against an empty store succeeds, a subsequent
login with the same email and password (and role student) succeeds with
a token and role student, and the same login with password wrong fails
with the generic invalid-credentials error. -/
theorem register_then_login_e2e :
    validateRegister ⟨some "A", some "a@x.com", some "555", some "pw123456",
        some "pw123456", some "student"⟩ =
      .ok ⟨"A", "a@x.com", "555", "pw123456", "pw123456", "student"⟩ ∧
    (register [] ⟨"A", "a@x.com", "555", "pw123456", "pw123456", "student"⟩ 100 3 0).1 =
      .ok "Account created successfully!" ∧
    validateLogin ⟨some "a@x.com", some "pw123456", some "student"⟩ =
      .ok ⟨"a@x.com", "pw123456", "student"⟩ ∧
    (login "sec"
        (register [] ⟨"A", "a@x.com", "555", "pw123456", "pw123456", "student"⟩ 100 3 0).2
        ⟨"a@x.com", "pw123456", "student"⟩ 200).1 =
      .ok ⟨"Login successful!", create_token "sec" 200 "0" "student", "student",
        ⟨"A", "a@x.com", "555"⟩⟩ ∧
    (login "sec"
        (register [] ⟨"A", "a@x.com", "555", "pw123456", "pw123456", "student"⟩ 100 3 0).2
        ⟨"a@x.com", "wrong", "student"⟩ 200).1 =
      .error ⟨400, "Invalid email or password"⟩ :=
  ⟨rfl, rfl, rfl, rfl, rfl⟩

/-- Claim C9: every successful login response is exactly the record built
from the constant message, the issued token, the stored role, and the
minimal profile of name, email and phone (src/main.py lines 141-150); it
is built without reading the stored password hash, so the hash appears
nowhere in it.  Every successful registration response is the constant
confirmation message alone (src/main.py line 111), so no registration
response contains the hash either. -/
theorem login_response_minimal_profile (secret : String) (store : List StoredUser)
    (data : LoginModel) (now : Nat) (u : StoredUser)
    (he : data.email ≠ "") (hp : data.password ≠ "") (hr : data.role ≠ "")
    (hfind : find_one store data.email = some u)
    (hrole : u.role = data.role)
    (hpw : verify_password data.password u.password = true) :
    (login secret store data now).1 =
      .ok ⟨"Login successful!", create_token secret now (toString u.id) u.role, u.role,
        ⟨u.name, u.email, u.phone⟩⟩ ∧
    (∀ (store2 : List StoredUser) (user2 : RegisterModel) (now2 salt2 newId2 : Nat)
        (m : String),
      (register store2 user2 now2 salt2 newId2).1 = .ok m →
      m = "Account created successfully!") := by
  constructor
  · simp [login, he, hp, hr, hfind, hrole, hpw]
  · intro store2 user2 now2 salt2 newId2 m h
    unfold register at h
    split at h
    · exact absurd h (by simp)
    · split at h
      · exact absurd h (by simp)
      · split at h
        · exact absurd h (by simp)
        · split at h
          · exact absurd h (by simp)
          · simp only [Except.ok.injEq] at h
            exact h.symm

/-- Witness for C9 at concrete inputs. -/
theorem login_response_minimal_profile_witness :
    ((login "sec" [demoUser] ⟨"a@x.com", "pw123456", "student"⟩ 200).1 =
      .ok ⟨"Login successful!", create_token "sec" 200 "0" "student", "student",
        ⟨"A", "a@x.com", "555"⟩⟩) ∧
    ("Account created successfully!" : String) = "Account created successfully!" :=
  ⟨(login_response_minimal_profile "sec" [demoUser] ⟨"a@x.com", "pw123456", "student"⟩ 200
      demoUser (by decide) (by decide) (by decide) (by decide) (by decide) (by decide)).1,
   (login_response_minimal_profile "sec" [demoUser] ⟨"a@x.com", "pw123456", "student"⟩ 200
      demoUser (by decide) (by decide) (by decide) (by decide) (by decide) (by decide)).2
     [] ⟨"A", "a@x.com", "555", "pw123456", "pw123456", "student"⟩ 100 3 0
     "Account created successfully!" rfl⟩

/-- Claim C10: the login handler never modifies the user store, whatever
its outcome: the second component of its result is the store it was
given on every control path. -/
theorem login_never_writes_store (secret : String) (store : List StoredUser)
    (data : LoginModel) (now : Nat) : (login secret store data now).2 = store :=
  login_store_frame secret store data now

end Busback
